import Mathlib

/-!
Shallow embedding of the TeleDrive-RS core (src/main.rs): the JSON-file
metadata store (`Database`), the size formatter (`format_size`), the phone
authentication flow (`authenticate_with_phone`) and the upload workflow
(`upload_file_to_telegram` / the `on_upload_file` trigger task).

External collaborators (serde_json, tokio::fs, the grammers Telegram client,
the Slint UI handle, stdin) are modelled by explicit environment values
describing the outcome of each external call, and by an event trace recording
every UI mutation, remote call, stdin read and database insert the code
performs, in program order.
-/

namespace TeleDrive

/-- JSON value, as produced/consumed by serde_json.  Numbers are restricted to
integers: the only number the program ever serializes is the `u64` field
`file_size`, and a non-integer number in a snapshot makes `u64`
deserialization fail, which the `num`/non-`num` distinction already covers. -/
inductive Json where
  | null : Json
  | bool : Bool → Json
  | num : Int → Json
  | str : String → Json
  | arr : List Json → Json
  | obj : List (String × Json) → Json

/-- File record structure for JSON storage (struct `FileRecord`,
src/main.rs lines 22-28).  `file_size: u64` is modelled as `Nat`; the `u64`
range bound appears as a side condition where deserialization needs it. -/
structure FileRecord where
  filename : String
  file_id : String
  upload_date : String
  file_size : Nat
deriving DecidableEq, Repr

/-- Serialization of one record by the derived `Serialize` impl: an object
with the struct fields in declaration order. -/
def encodeRecord (r : FileRecord) : Json :=
  .obj [("filename", .str r.filename), ("file_id", .str r.file_id),
        ("upload_date", .str r.upload_date), ("file_size", .num r.file_size)]

/-- Serialization of the record vector: a JSON array. -/
def encodeRecords (rs : List FileRecord) : Json :=
  .arr (rs.map encodeRecord)

/-- First binding of a field name in a JSON object, as serde's map access
uses it. -/
def lookupField : List (String × Json) → String → Option Json
  | [], _ => none
  | (k, v) :: rest, name => if k = name then some v else lookupField rest name

/-- Deserialization of one record by the derived `Deserialize` impl: the four
fields must be present with the right types, `file_size` must be a
non-negative integer within `u64` range; unknown fields are ignored (serde's
default). -/
def decodeRecord (j : Json) : Except Unit FileRecord :=
  match j with
  | .obj fields =>
    match lookupField fields "filename", lookupField fields "file_id",
          lookupField fields "upload_date", lookupField fields "file_size" with
    | some (.str a), some (.str b), some (.str c), some (.num n) =>
      if 0 ≤ n ∧ n < (2 : Int) ^ 64 then .ok ⟨a, b, c, n.toNat⟩
      else .error ()
    | _, _, _, _ => .error ()
  | _ => .error ()

/-- Deserialization of a list of records; any element failure fails the
whole parse (serde behaviour for `Vec<FileRecord>`). -/
def decodeList : List Json → Except Unit (List FileRecord)
  | [] => .ok []
  | j :: rest =>
    match decodeRecord j, decodeList rest with
    | .ok r, .ok rs => .ok (r :: rs)
    | _, _ => .error ()

/-- Deserialization of the snapshot document: must be a JSON array of records
(`serde_json::from_str::<Vec<FileRecord>>`). -/
def decodeRecords (j : Json) : Except Unit (List FileRecord) :=
  match j with
  | .arr xs => decodeList xs
  | _ => .error ()

/-- Modelled from the contract of the external crates `tokio::fs` and
`serde_json`: the content of a snapshot file, classified by the two stages
that read it.  `wellFormed j` is a valid-UTF-8 file whose text is a
syntactically valid JSON document with value `j`; `malformed` is a
valid-UTF-8 file whose text is not valid JSON (so `serde_json::from_str`
fails at the syntax stage); `nonUtf8` is a file whose bytes are not valid
UTF-8 (for example the single byte 0xFF), which `tokio::fs::read_to_string`
rejects with an `InvalidData` I/O error before any parsing happens. -/
inductive JsonDoc where
  | wellFormed : Json → JsonDoc
  | malformed : JsonDoc
  | nonUtf8 : JsonDoc

/-- Error classes of the fallible external operations the code propagates. -/
inductive IoError where
  | invalidData : IoError
  | writeFailed : IoError
deriving DecidableEq, Repr

/-- Modelled from the contract of `tokio::fs::read_to_string`: reading a file
succeeds, yielding its text (represented by its JSON parse classification),
unless the bytes are not valid UTF-8, in which case it fails with an
`InvalidData` error. -/
def read_to_string : JsonDoc → Except IoError (Except Unit Json)
  | .wellFormed j => .ok (.ok j)
  | .malformed => .ok (.error ())
  | .nonUtf8 => .error .invalidData

/-- Modelled from the contract of `serde_json::from_str::<Vec<FileRecord>>`:
fails on syntactically invalid text, otherwise applies the derived
deserializer to the parsed document. -/
def from_str (text : Except Unit Json) : Except Unit (List FileRecord) :=
  match text with
  | .error _ => .error ()
  | .ok j => decodeRecords j

/-- Database management using JSON file storage (struct `Database`,
src/main.rs lines 30-34).  The `Arc<Mutex<...>>` wrapper is ownership
plumbing; the state it protects is the record vector. -/
structure Database where
  file_path : String
  records : List FileRecord
deriving DecidableEq, Repr

/-- Database::new (src/main.rs lines 37-50).  `content` is the state of the
filesystem at `db_path`: `none` when no file exists there.  When a file
exists its text is read (`?` propagates a read failure) and parsed, a parse
failure falling back to the empty vector (`unwrap_or_default`). -/
def Database.new (db_path : String) (content : Option JsonDoc) :
    Except IoError Database :=
  match content with
  | none => .ok ⟨db_path, []⟩
  | some doc =>
    match read_to_string doc with
    | .error e => .error e
    | .ok text =>
      match from_str text with
      | .ok rs => .ok ⟨db_path, rs⟩
      | .error _ => .ok ⟨db_path, []⟩

/-- Database::save (src/main.rs lines 52-60): serialize the whole record
vector and rewrite the snapshot file.  `writeOk` is the environment's verdict
on the file create/write; on failure the function returns the I/O error and
the on-disk state is left as it was (the theorems below never rely on the
on-disk state after a failed write). -/
def Database.save (db : Database) (writeOk : Bool) (fs : Option JsonDoc) :
    Option JsonDoc × Except IoError Unit :=
  if writeOk then (some (.wellFormed (encodeRecords db.records)), .ok ())
  else (fs, .error .writeFailed)

/-- Database::insert_file (src/main.rs lines 62-76): build the record
(`upload_date` comes from the clock, here a parameter), push it onto the
in-memory vector, then persist via `save`, propagating a save failure. -/
def Database.insert_file (db : Database) (writeOk : Bool) (fs : Option JsonDoc)
    (filename file_id upload_date : String) (file_size : Nat) :
    Database × Option JsonDoc × Except IoError Unit :=
  let record : FileRecord := ⟨filename, file_id, upload_date, file_size⟩
  let db' : Database := ⟨db.file_path, db.records ++ [record]⟩
  let (fs', res) := db'.save writeOk fs
  (db', fs', res)

/-- Format file size (src/main.rs lines 96-110): unit constant KB. -/
def KB : Nat := 1024

/-- Unit constant MB. -/
def MB : Nat := KB * 1024

/-- Unit constant GB. -/
def GB : Nat := MB * 1024

/-- Round `num / den` (with `den > 0`) to the nearest integer, ties to even:
the rounding the float formatter applies at the last kept decimal digit. -/
def roundHalfEven (num den : Nat) : Nat :=
  let q := num / den
  let r := num % den
  if 2 * r < den then q
  else if den < 2 * r then q + 1
  else if q % 2 = 0 then q else q + 1

/-- Left-pad the fractional part to two digits. -/
def pad2 (n : Nat) : String :=
  if n < 10 then "0" ++ toString n else toString n

/-- Rendering of `format!("\x7b:.2\x7d", size as f64 / unit as f64)`: the
quotient rounded to a whole number of hundredths, printed as integer part,
a dot, and a two-digit fractional part.  The float division and decimal
formatting are modelled by exact rational rounding; on every concrete value
used in the theorems below the quotient is exactly representable, so the
model and the `f64` computation agree there. -/
def formatTwoDec (size unit : Nat) : String :=
  let h := roundHalfEven (size * 100) unit
  toString (h / 100) ++ "." ++ pad2 (h % 100)

/-- format_size (src/main.rs lines 96-110). -/
def format_size (size : Nat) : String :=
  if GB ≤ size then formatTwoDec size GB ++ " GB"
  else if MB ≤ size then formatTwoDec size MB ++ " MB"
  else if KB ≤ size then formatTwoDec size KB ++ " KB"
  else toString size ++ " B"

/-- Row handed to the UI list (the generated Slint `FileEntry`, as filled by
`get_all_files`). -/
structure SlintFileEntry where
  filename : String
  file_id : String
  upload_date : String
  size : String
deriving DecidableEq, Repr

/-- The entry `get_all_files` builds from one record. -/
def recordEntry (r : FileRecord) : SlintFileEntry :=
  ⟨r.filename, r.file_id, r.upload_date, format_size r.file_size⟩

/-- Database::get_all_files (src/main.rs lines 78-92): map every record to a
UI entry in insertion order, then reverse.  The Rust return type is
`Result<...>` but no branch of the body produces an error. -/
def Database.get_all_files (db : Database) : List SlintFileEntry :=
  (db.records.map recordEntry).reverse

/-- Remote or local external calls the code makes, recorded in the trace. -/
inductive ExtCall where
  | fsMetadata : ExtCall
  | uploadFile : ExtCall
  | getMe : ExtCall
  | resolveUsername : String → ExtCall
  | sendMessage : Nat → ExtCall
  | isAuthorized : ExtCall
  | requestLoginCode : ExtCall
  | signInCall : ExtCall
  | checkPassword : ExtCall
deriving DecidableEq, Repr

/-- One observable effect, in program order.  Progress values are the decimal
values of the `f32` literals the code writes (they are only stored and
compared, never computed with, so exact rationals are a faithful carrier). -/
inductive Ev where
  | setStatus : String → Ev
  | setProgress : Rat → Ev
  | setUploading : Bool → Ev
  | setAuthenticated : Bool → Ev
  | setSelectedFile : String → Ev
  | call : ExtCall → Ev
  | readLine : Ev
  | dbInsert : FileRecord → Ev
deriving DecidableEq

/-- One `ui_handle.upgrade()` attempt (the ObserverBridge): if the weak
handle at attempt index `i` is still alive the closure's effects are
delivered, otherwise they are silently dropped. -/
def upgradeEmit (alive : Nat → Bool) (i : Nat) (evs : List Ev) : List Ev :=
  if alive i then evs else []

/-- Failure classes of the upload workflow (the `anyhow` errors of
`upload_file_to_telegram`, distinguished by which step produced them). -/
inductive UploadError where
  | invalidFilename : UploadError
  | ioError : UploadError
  | transferError : UploadError
  | resolutionError : UploadError
  | deliveryError : UploadError
deriving DecidableEq, Repr

/-- Status-string rendering of an upload failure (`format!("Upload failed:
\x7b\x7d", e)`); the exact wording of each `anyhow` message is immaterial to
the claims, only that a failure status is emitted. -/
def uploadErrMsg : UploadError → String
  | .invalidFilename => "Invalid filename"
  | .ioError => "io error"
  | .transferError => "transfer error"
  | .resolutionError => "Failed to resolve self"
  | .deliveryError => "delivery error"

/-- Outcomes of the external calls one upload invocation performs, fixed per
invocation.  `filename` is `path.file_name().and_then(|n| n.to_str())`;
`metadata` the size reported by `tokio::fs::metadata`; `uploadBlob` the
opaque uploaded-media handle; `resolveSelf` the result of
`resolve_username("me")` (`.ok none` is `Ok(None)`); `alive i` whether the
`i`-th weak-handle upgrade inside the workflow still finds the UI. -/
structure UploadEnv where
  filename : Option String
  metadata : Except Unit Nat
  uploadBlob : Except Unit Nat
  getMe : Except Unit Unit
  resolveSelf : Except Unit (Option Nat)
  send : Except Unit Unit
  alive : Nat → Bool

/-- upload_file_to_telegram (src/main.rs lines 113-171): the ordered upload
workflow.  Returns the `Result` value and the trace of effects, in program
order: filename extraction, metadata read, status + progress 0.1, the upload
call, progress 0.8, `get_me`, `resolve_username("me")`, `send_message` to the
resolved chat, progress 1.0, and the derived `tg_file_<name>` identifier. -/
def upload_file_to_telegram (env : UploadEnv) : Except UploadError String × List Ev :=
  match env.filename with
  | none => (.error .invalidFilename, [])
  | some filename =>
    let t := [Ev.call .fsMetadata]
    match env.metadata with
    | .error _ => (.error .ioError, t)
    | .ok _file_size =>
      let t := t ++ upgradeEmit env.alive 0
        [.setStatus ("Uploading " ++ filename ++ "..."), .setProgress (1 / 10)]
      let t := t ++ [Ev.call .uploadFile]
      match env.uploadBlob with
      | .error _ => (.error .transferError, t)
      | .ok _uploaded =>
        let t := t ++ upgradeEmit env.alive 1 [.setProgress (8 / 10)]
        let t := t ++ [Ev.call .getMe]
        match env.getMe with
        | .error _ => (.error .resolutionError, t)
        | .ok _ =>
          let t := t ++ [Ev.call (.resolveUsername "me")]
          match env.resolveSelf with
          | .error _ => (.error .resolutionError, t)
          | .ok none => (.error .resolutionError, t)
          | .ok (some chat) =>
            let t := t ++ [Ev.call (.sendMessage chat)]
            match env.send with
            | .error _ => (.error .deliveryError, t)
            | .ok _ =>
              let t := t ++ upgradeEmit env.alive 2 [.setProgress 1]
              (.ok ("tg_file_" ++ filename), t)

/-- on_upload_file (src/main.rs lines 355-415): the spawned upload task.
`selected` is the cloned selected-file slot (`none`: the callback body does
nothing); `clientOpt` the cloned connection slot; `walive i` the outcome of
the task's own `i`-th upgrade attempt (0 = start block, 1 = result block,
2 = final block); `upload_date` the clock reading `insert_file` stamps.
Returns the database and filesystem after the task plus its full trace. -/
def on_upload_file (selected : Option Unit) (clientOpt : Option Unit)
    (db : Database) (fs : Option JsonDoc) (writeOk : Bool) (env : UploadEnv)
    (walive : Nat → Bool) (upload_date : String) :
    Database × Option JsonDoc × List Ev :=
  match selected with
  | none => (db, fs, [])
  | some _ =>
    let t := upgradeEmit walive 0
      [.setUploading true, .setProgress 0, .setStatus "Starting upload..."]
    match clientOpt with
    | none => (db, fs, t ++ upgradeEmit walive 2 [.setUploading false, .setProgress 0])
    | some _ =>
      let t := t ++ [Ev.call .fsMetadata]
      let file_size := match env.metadata with | .ok n => n | .error _ => 0
      let (res, tu) := upload_file_to_telegram env
      let t := t ++ tu
      match res with
      | .ok file_id =>
        let filename := env.filename.getD "Unknown"
        let record : FileRecord := ⟨filename, file_id, upload_date, file_size⟩
        let (db', fs', _saveRes) :=
          db.insert_file writeOk fs filename file_id upload_date file_size
        let t := t ++ [Ev.dbInsert record]
        let t := t ++ upgradeEmit walive 1
          [.setStatus "Upload successful!", .setSelectedFile "No file selected"]
        (db', fs', t ++ upgradeEmit walive 2 [.setUploading false, .setProgress 0])
      | .error e =>
        let t := t ++ upgradeEmit walive 1
          [.setStatus ("Upload failed: " ++ uploadErrMsg e)]
        (db, fs, t ++ upgradeEmit walive 2 [.setUploading false, .setProgress 0])

/-- The progress values a trace delivers, in order. -/
def progressEvents (t : List Ev) : List Rat :=
  t.filterMap fun e => match e with | .setProgress q => some q | _ => none

/-- The database-insert events of a trace. -/
def insertEvents (t : List Ev) : List FileRecord :=
  t.filterMap fun e => match e with | .dbInsert r => some r | _ => none

/-- The external-call events of a trace, in order. -/
def callEvents (t : List Ev) : List ExtCall :=
  t.filterMap fun e => match e with | .call c => some c | _ => none

/-- The status strings a trace delivers, in order. -/
def statusEvents (t : List Ev) : List String :=
  t.filterMap fun e => match e with | .setStatus s => some s | _ => none

/-- Outcome of the `sign_in` call: success, the distinguished
`SignInError::PasswordRequired`, or any other failure. -/
inductive SignInResult where
  | success : SignInResult
  | passwordRequired : SignInResult
  | failure : SignInResult
deriving DecidableEq, Repr

/-- Failure classes of `authenticate_with_phone`. -/
inductive AuthError where
  | rpc : AuthError
  | io : AuthError
  | signInFailed : AuthError
deriving DecidableEq, Repr

/-- Outcomes of the external interactions of one authentication attempt. -/
structure AuthEnv where
  isAuthorized : Except Unit Bool
  requestCode : Except Unit Unit
  codeLine : Except Unit String
  signIn : SignInResult
  passwordLine : Except Unit String
  checkPassword : Except Unit Unit

/-- authenticate_with_phone (src/main.rs lines 197-237): check
`is_authorized`; when already authorized return at once, otherwise request a
login code, read it from stdin, call `sign_in`, and on the distinguished
password-required response read the 2FA secret from stdin and submit it via
`check_password`.  Returns the `Result` and the trace of the network calls
and stdin reads performed, in program order. -/
def authenticate_with_phone (env : AuthEnv) : Except AuthError Unit × List Ev :=
  let t := [Ev.call .isAuthorized]
  match env.isAuthorized with
  | .error _ => (.error .rpc, t)
  | .ok true => (.ok (), t)
  | .ok false =>
    let t := t ++ [Ev.call .requestLoginCode]
    match env.requestCode with
    | .error _ => (.error .rpc, t)
    | .ok _ =>
      let t := t ++ [Ev.readLine]
      match env.codeLine with
      | .error _ => (.error .io, t)
      | .ok _code =>
        let t := t ++ [Ev.call .signInCall]
        match env.signIn with
        | .success => (.ok (), t)
        | .failure => (.error .signInFailed, t)
        | .passwordRequired =>
          let t := t ++ [Ev.readLine]
          match env.passwordLine with
          | .error _ => (.error .io, t)
          | .ok _password =>
            let t := t ++ [Ev.call .checkPassword]
            match env.checkPassword with
            | .error _ => (.error .rpc, t)
            | .ok _ => (.ok (), t)

/-- Repeated `insert_file` with every write succeeding, one call per record,
in order: the shape of the C2 round-trip experiment. -/
def insertAll (db : Database) (fs : Option JsonDoc) :
    List FileRecord → Database × Option JsonDoc
  | [] => (db, fs)
  | r :: rest =>
    let (db', fs', _) :=
      db.insert_file true fs r.filename r.file_id r.upload_date r.file_size
    insertAll db' fs' rest

lemma decodeRecord_encodeRecord (r : FileRecord) (h : r.file_size < 2 ^ 64) :
    decodeRecord (encodeRecord r) = .ok r := by
  cases r with
  | mk a b c n =>
    have h0 : (0 : Int) ≤ (n : Int) := Int.natCast_nonneg n
    have h1 : (n : Int) < 2 ^ 64 := by exact_mod_cast h
    have h2 : n < 2 ^ 64 := h
    simp [encodeRecord, decodeRecord, lookupField, h0, h1]
    norm_num at h2
    exact h2

lemma decodeList_cons (j : Json) (rest : List Json) :
    decodeList (j :: rest) = (match decodeRecord j, decodeList rest with
      | .ok r, .ok rs => .ok (r :: rs) | _, _ => .error ()) := rfl

lemma decodeList_encode (rs : List FileRecord) (h : ∀ r ∈ rs, r.file_size < 2 ^ 64) :
    decodeList (rs.map encodeRecord) = .ok rs := by
  induction rs with
  | nil => rfl
  | cons r rest ih =>
    have hr := decodeRecord_encodeRecord r (h r (List.mem_cons_self r rest))
    have hrest := ih fun x hx => h x (List.mem_cons_of_mem r hx)
    rw [List.map_cons, decodeList_cons, hr, hrest]

lemma decodeRecords_encodeRecords (rs : List FileRecord)
    (h : ∀ r ∈ rs, r.file_size < 2 ^ 64) :
    decodeRecords (encodeRecords rs) = .ok rs := by
  simp [decodeRecords, encodeRecords, decodeList_encode rs h]

lemma insertAll_cons (db : Database) (fs : Option JsonDoc) (r : FileRecord)
    (rest : List FileRecord) :
    insertAll db fs (r :: rest) =
      insertAll ⟨db.file_path, db.records ++ [r]⟩
        (some (.wellFormed (encodeRecords (db.records ++ [r])))) rest := rfl

lemma insertAll_eq (rs : List FileRecord) : ∀ (db : Database) (fs : Option JsonDoc),
    insertAll db fs rs =
      (⟨db.file_path, db.records ++ rs⟩,
       if rs.isEmpty then fs
       else some (.wellFormed (encodeRecords (db.records ++ rs)))) := by
  induction rs with
  | nil => intro db fs; simp [insertAll]
  | cons r rest ih =>
    intro db fs
    rw [insertAll_cons, ih]
    cases rest with
    | nil => simp
    | cons s ss => simp [List.append_assoc]

/-- C1: format_size uses the `B` form below 1024 bytes, a two-decimal `KB`
form below 1024², a two-decimal `MB` form below 1024³, a two-decimal `GB`
form above, and on the four sample inputs produces exactly the sample
strings. -/
theorem format_size_spec (b : Nat) (hb : b < 2 ^ 64) :
    (b < 1024 → format_size b = toString b ++ " B") ∧
    (1024 ≤ b → b < 1024 ^ 2 →
      ∃ i f : Nat, f < 100 ∧ format_size b = toString i ++ "." ++ pad2 f ++ " KB") ∧
    (1024 ^ 2 ≤ b → b < 1024 ^ 3 →
      ∃ i f : Nat, f < 100 ∧ format_size b = toString i ++ "." ++ pad2 f ++ " MB") ∧
    (1024 ^ 3 ≤ b →
      ∃ i f : Nat, f < 100 ∧ format_size b = toString i ++ "." ++ pad2 f ++ " GB") ∧
    format_size 500 = "500 B" ∧ format_size 2048 = "2.00 KB" ∧
    format_size 1572864 = "1.50 MB" ∧ format_size 3221225472 = "3.00 GB" := by
  have hKB : KB = 1024 := rfl
  have hMB : MB = 1048576 := rfl
  have hGB : GB = 1073741824 := rfl
  have e2 : (1024 : Nat) ^ 2 = 1048576 := by norm_num
  have e3 : (1024 : Nat) ^ 3 = 1073741824 := by norm_num
  refine ⟨?_, ?_, ?_, ?_, by decide, by decide, by decide, by decide⟩
  · intro h
    have h1 : ¬ GB ≤ b := by rw [hGB]; omega
    have h2 : ¬ MB ≤ b := by rw [hMB]; omega
    have h3 : ¬ KB ≤ b := by rw [hKB]; omega
    simp [format_size, h1, h2, h3]
  · intro hlo hhi
    rw [e2] at hhi
    have h1 : ¬ GB ≤ b := by rw [hGB]; omega
    have h2 : ¬ MB ≤ b := by rw [hMB]; omega
    have h3 : KB ≤ b := by rw [hKB]; omega
    simp [format_size, h1, h2, h3, formatTwoDec]
    exact ⟨roundHalfEven (b * 100) KB / 100, roundHalfEven (b * 100) KB % 100,
      Nat.mod_lt _ (by norm_num), rfl⟩
  · intro hlo hhi
    rw [e2] at hlo; rw [e3] at hhi
    have h1 : ¬ GB ≤ b := by rw [hGB]; omega
    have h2 : MB ≤ b := by rw [hMB]; omega
    simp [format_size, h1, h2, formatTwoDec]
    exact ⟨roundHalfEven (b * 100) MB / 100, roundHalfEven (b * 100) MB % 100,
      Nat.mod_lt _ (by norm_num), rfl⟩
  · intro hlo
    rw [e3] at hlo
    have h1 : GB ≤ b := by rw [hGB]; omega
    simp [format_size, h1, formatTwoDec]
    exact ⟨roundHalfEven (b * 100) GB / 100, roundHalfEven (b * 100) GB % 100,
      Nat.mod_lt _ (by norm_num), rfl⟩

/-- Witness for C1 at concrete inputs in each of the four branches. -/
theorem format_size_spec_witness :
    format_size 500 = "500 B" ∧ format_size 2048 = "2.00 KB" ∧
    format_size 1572864 = "1.50 MB" ∧ format_size 3221225472 = "3.00 GB" := by
  have h := format_size_spec 2048 (by norm_num)
  exact ⟨h.2.2.2.2.1, h.2.2.2.2.2.1, h.2.2.2.2.2.2.1, h.2.2.2.2.2.2.2⟩

/-- C3 counterexample: a snapshot file whose bytes are not valid UTF-8 (for
example the single byte 0xFF) makes `Database::new` return an error — the
`?` on `tokio::fs::read_to_string` at src/main.rs line 40 propagates the
`InvalidData` read failure, so opening can fail due to the file's content. -/
theorem open_content_error_cex :
    Database.new "telegram_cloud.json" (some JsonDoc.nonUtf8) =
      Except.error IoError.invalidData := rfl

/-- C3 amended: if no file exists the store starts empty; if the file is
readable (valid UTF-8) but its text fails to parse as a record array, the
store silently falls back to empty; a parseable snapshot loads its records;
but if reading the file fails — in particular when its bytes are not valid
UTF-8 — `Database::new` propagates the error instead of falling back. -/
theorem open_recovery_spec (path : String) :
    Database.new path none = .ok ⟨path, []⟩ ∧
    Database.new path (some .malformed) = .ok ⟨path, []⟩ ∧
    (∀ j : Json, decodeRecords j = .error () →
      Database.new path (some (.wellFormed j)) = .ok ⟨path, []⟩) ∧
    (∀ (j : Json) (rs : List FileRecord), decodeRecords j = .ok rs →
      Database.new path (some (.wellFormed j)) = .ok ⟨path, rs⟩) ∧
    Database.new path (some .nonUtf8) = .error .invalidData := by
  refine ⟨rfl, rfl, fun j h => ?_, fun j rs h => ?_, rfl⟩
  · simp [Database.new, read_to_string, from_str, h]
  · simp [Database.new, read_to_string, from_str, h]

/-- Witness for C3's amended theorem: a document that is not a record array
falls back to the empty store, and a serialized record array loads back. -/
theorem open_recovery_witness :
    Database.new "p" (some (.wellFormed .null)) = .ok ⟨"p", []⟩ ∧
    Database.new "p" (some (.wellFormed (encodeRecords [⟨"a", "b", "c", 5⟩]))) =
      .ok ⟨"p", [⟨"a", "b", "c", 5⟩]⟩ :=
  ⟨(open_recovery_spec "p").2.2.1 Json.null rfl,
   (open_recovery_spec "p").2.2.2.1 (encodeRecords [⟨"a", "b", "c", 5⟩])
     [⟨"a", "b", "c", 5⟩] rfl⟩

/-- C4: insert_file appends the record to the in-memory sequence whatever the
write's fate; when the write succeeds it returns `Ok` and the snapshot holds
the serialized full sequence; when the write fails it returns the I/O error
and the in-memory append is not rolled back (the appended-records equation
holds for both values of `writeOk`). -/
theorem insert_file_spec (db : Database) (fs : Option JsonDoc)
    (filename file_id upload_date : String) (file_size : Nat) :
    (∀ writeOk,
      ((db.insert_file writeOk fs filename file_id upload_date file_size).1).records =
        db.records ++ [⟨filename, file_id, upload_date, file_size⟩]) ∧
    (db.insert_file true fs filename file_id upload_date file_size).2.2 = .ok () ∧
    (db.insert_file true fs filename file_id upload_date file_size).2.1 =
      some (.wellFormed (encodeRecords
        (db.records ++ [⟨filename, file_id, upload_date, file_size⟩]))) ∧
    (db.insert_file false fs filename file_id upload_date file_size).2.2 =
      .error IoError.writeFailed := by
  refine ⟨fun writeOk => ?_, ?_, ?_, ?_⟩ <;>
    first
      | (cases writeOk <;> simp [Database.insert_file, Database.save])
      | simp [Database.insert_file, Database.save]

/-- C2: inserting a nonempty sequence of records (each within `u64` range,
every write succeeding) into a store opened empty leaves exactly those
records in insertion order in memory, reopening a store from the persisted
snapshot yields the same records in the same order, and get_all_files on the
reopened store returns their UI entries reversed, most recent first. -/
theorem store_roundtrip (path : String) (fs0 : Option JsonDoc)
    (rs : List FileRecord) (hne : rs ≠ [])
    (hsz : ∀ r ∈ rs, r.file_size < 2 ^ 64) :
    (insertAll ⟨path, []⟩ fs0 rs).1.records = rs ∧
    Database.new path (insertAll ⟨path, []⟩ fs0 rs).2 = .ok ⟨path, rs⟩ ∧
    Database.get_all_files ⟨path, rs⟩ = (rs.map recordEntry).reverse := by
  have hE : rs.isEmpty = false := by
    cases rs with
    | nil => exact absurd rfl hne
    | cons a l => rfl
  rw [insertAll_eq]
  refine ⟨by simp, ?_, rfl⟩
  simp only [hE, Bool.false_eq_true, if_false, List.nil_append]
  simp [Database.new, read_to_string, from_str, decodeRecords_encodeRecords rs hsz]

/-- Witness for C2 with one concrete record inserted into a fresh store. -/
theorem store_roundtrip_witness :
    (insertAll ⟨"p", []⟩ none [⟨"a", "b", "c", 500⟩]).1.records =
      [⟨"a", "b", "c", 500⟩] ∧
    Database.new "p" (insertAll ⟨"p", []⟩ none [⟨"a", "b", "c", 500⟩]).2 =
      .ok ⟨"p", [⟨"a", "b", "c", 500⟩]⟩ :=
  ⟨(store_roundtrip "p" none [⟨"a", "b", "c", 500⟩] (by simp) (by decide)).1,
   (store_roundtrip "p" none [⟨"a", "b", "c", 500⟩] (by simp) (by decide)).2.1⟩

lemma upload_no_insert_events (env : UploadEnv) :
    insertEvents (upload_file_to_telegram env).2 = [] := by
  obtain ⟨fn, md, ub, gm, rsv, sd, al⟩ := env
  rcases fn with _ | fn <;> rcases md with _ | sz <;> rcases ub with _ | hdl <;>
    rcases gm with _ | u <;> rcases rsv with _ | o <;> rcases sd with _ | v <;>
    first
      | (rcases o with _ | c <;>
          simp [upload_file_to_telegram, insertEvents, upgradeEmit,
            List.filterMap_append, apply_ite (List.filterMap _)])
      | simp [upload_file_to_telegram, insertEvents, upgradeEmit,
          List.filterMap_append, apply_ite (List.filterMap _)]

/-- C10: when the upload trigger fires with a file selected but no
authenticated client handle in the session state, the task changes neither
the database nor the snapshot, calls no external operation and inserts no
record, whatever the weak handle's fate; and with a live UI its whole trace
is exactly: uploading flag on, progress 0.0, status "Starting upload...",
uploading flag off, progress 0.0 — no error status and no status change
after the pre-remote-phase one. -/
theorem upload_no_client_noop (db : Database) (fs : Option JsonDoc)
    (writeOk : Bool) (env : UploadEnv) (upload_date : String) :
    (∀ walive : Nat → Bool,
      (on_upload_file (some ()) none db fs writeOk env walive upload_date).1 = db ∧
      (on_upload_file (some ()) none db fs writeOk env walive upload_date).2.1 = fs ∧
      insertEvents
        (on_upload_file (some ()) none db fs writeOk env walive upload_date).2.2 = [] ∧
      callEvents
        (on_upload_file (some ()) none db fs writeOk env walive upload_date).2.2 = []) ∧
    (on_upload_file (some ()) none db fs writeOk env (fun _ => true) upload_date).2.2 =
      [.setUploading true, .setProgress 0, .setStatus "Starting upload...",
       .setUploading false, .setProgress 0] := by
  constructor
  · intro walive
    refine ⟨rfl, rfl, ?_, ?_⟩ <;>
      simp [on_upload_file, insertEvents, callEvents, upgradeEmit,
        List.filterMap_append, apply_ite (List.filterMap _)]
  · rfl

/-- C5: whenever the upload workflow fails at any step, the spawned task
leaves the database and the snapshot untouched and performs no database
insert, for every selection state, client state, write verdict and UI-handle
fate. -/
theorem failed_upload_no_insert (selected clientOpt : Option Unit)
    (db : Database) (fs : Option JsonDoc) (writeOk : Bool) (env : UploadEnv)
    (walive : Nat → Bool) (upload_date : String) (e : UploadError)
    (hfail : (upload_file_to_telegram env).1 = .error e) :
    (on_upload_file selected clientOpt db fs writeOk env walive upload_date).1 = db ∧
    (on_upload_file selected clientOpt db fs writeOk env walive upload_date).2.1 = fs ∧
    insertEvents
      (on_upload_file selected clientOpt db fs writeOk env walive upload_date).2.2
      = [] := by
  have hins := upload_no_insert_events env
  rcases selected with _ | _
  · exact ⟨rfl, rfl, rfl⟩
  rcases clientOpt with _ | _
  · refine ⟨rfl, rfl, ?_⟩
    simp [on_upload_file, insertEvents, upgradeEmit,
      List.filterMap_append, apply_ite (List.filterMap _)]
  rcases hu : upload_file_to_telegram env with ⟨res, tu⟩
  rw [hu] at hfail hins
  simp only at hfail
  subst hfail
  refine ⟨?_, ?_, ?_⟩
  · simp [on_upload_file, hu]
  · simp [on_upload_file, hu]
  · simp [on_upload_file, hu, insertEvents, upgradeEmit,
      List.filterMap_append, apply_ite (List.filterMap _)]
    simpa [insertEvents] using hins

/-- A concrete upload environment failing at the transfer step (the upload
call returns an error), with everything else healthy. -/
def envTransferFail : UploadEnv :=
  ⟨some "a.txt", .ok 500, .error (), .ok (), .ok (some 3), .ok (), fun _ => true⟩

/-- Witness for C5: the transfer-step failure leaves a store with one record
exactly as it was and inserts nothing. -/
theorem failed_upload_no_insert_witness :
    (on_upload_file (some ()) (some ()) ⟨"p", [⟨"a", "b", "c", 5⟩]⟩ none true
      envTransferFail (fun _ => true) "d").1 = ⟨"p", [⟨"a", "b", "c", 5⟩]⟩ ∧
    insertEvents
      (on_upload_file (some ()) (some ()) ⟨"p", [⟨"a", "b", "c", 5⟩]⟩ none true
        envTransferFail (fun _ => true) "d").2.2 = [] :=
  ⟨(failed_upload_no_insert (some ()) (some ()) ⟨"p", [⟨"a", "b", "c", 5⟩]⟩ none
      true envTransferFail (fun _ => true) "d" .transferError rfl).1,
   (failed_upload_no_insert (some ()) (some ()) ⟨"p", [⟨"a", "b", "c", 5⟩]⟩ none
      true envTransferFail (fun _ => true) "d" .transferError rfl).2.2⟩

/-- A concrete upload environment in which every step succeeds and the UI
handle stays alive. -/
def envOk : UploadEnv :=
  ⟨some "a.txt", .ok 500, .ok 7, .ok (), .ok (some 3), .ok (), fun _ => true⟩

/-- C6: when every workflow step succeeds, the task appends exactly one new
record to the metadata log — whatever the fate of the persistence write —
whose file_size is the byte length measured before the upload began and
whose file_id is the derived `tg_file_<name>` identifier; the trace shows
exactly one insert, of that record. -/
theorem successful_upload_record (db : Database) (fs : Option JsonDoc)
    (writeOk : Bool) (env : UploadEnv) (walive : Nat → Bool)
    (upload_date fn : String) (sz hdl c : Nat)
    (hfn : env.filename = some fn) (hmd : env.metadata = .ok sz)
    (hub : env.uploadBlob = .ok hdl) (hgm : env.getMe = .ok ())
    (hrs : env.resolveSelf = .ok (some c)) (hsd : env.send = .ok ()) :
    ((on_upload_file (some ()) (some ()) db fs writeOk env walive
        upload_date).1).records
      = db.records ++ [⟨fn, "tg_file_" ++ fn, upload_date, sz⟩] ∧
    insertEvents
      (on_upload_file (some ()) (some ()) db fs writeOk env walive
        upload_date).2.2
      = [⟨fn, "tg_file_" ++ fn, upload_date, sz⟩] := by
  constructor <;>
  · cases writeOk <;>
      simp [on_upload_file, upload_file_to_telegram, hfn, hmd, hub, hgm, hrs,
        hsd, Database.insert_file, Database.save, insertEvents, upgradeEmit,
        List.filterMap_append, apply_ite (List.filterMap _)]

/-- Witness for C6: the all-success environment appends one record with the
pre-measured size 500. -/
theorem successful_upload_record_witness :
    ((on_upload_file (some ()) (some ()) ⟨"p", []⟩ none true envOk
        (fun _ => true) "d").1).records
      = [⟨"a.txt", "tg_file_" ++ "a.txt", "d", 500⟩] := by
  have h := successful_upload_record ⟨"p", []⟩ none true envOk (fun _ => true)
    "d" "a.txt" 500 7 3 rfl rfl rfl rfl rfl rfl
  simpa using h.1

lemma sub100 {A : Type} (a b c : A) : List.Sublist [a] [a, b, c] :=
  .cons₂ a (List.nil_sublist [b, c])

lemma sub010 {A : Type} (a b c : A) : List.Sublist [b] [a, b, c] :=
  .cons a (.cons₂ b (List.nil_sublist [c]))

lemma sub001 {A : Type} (a b c : A) : List.Sublist [c] [a, b, c] :=
  .cons a (.cons b (.cons₂ c .slnil))

lemma sub110 {A : Type} (a b c : A) : List.Sublist [a, b] [a, b, c] :=
  .cons₂ a (.cons₂ b (List.nil_sublist [c]))

lemma sub101 {A : Type} (a b c : A) : List.Sublist [a, c] [a, b, c] :=
  .cons₂ a (.cons b (.cons₂ c .slnil))

lemma sub011 {A : Type} (a b c : A) : List.Sublist [b, c] [a, b, c] :=
  .cons a (.cons₂ b (.cons₂ c .slnil))

set_option maxHeartbeats 1000000 in
lemma upload_progress_sub (env : UploadEnv) :
    List.Sublist (progressEvents (upload_file_to_telegram env).2)
      [1 / 10, 8 / 10, 1] := by
  obtain ⟨fn, md, ub, gm, rsv, sd, al⟩ := env
  rcases fn with _ | fn <;> rcases md with _ | sz <;> rcases ub with _ | hdl <;>
    rcases gm with _ | u <;> rcases rsv with _ | (_ | c) <;> rcases sd with _ | v <;>
    cases h0 : al 0 <;> cases h1 : al 1 <;> cases h2 : al 2 <;>
    simp only [upload_file_to_telegram, progressEvents, upgradeEmit, h0, h1, h2,
      List.filterMap_append, List.filterMap_cons, List.filterMap_nil,
      List.append_nil, List.nil_append, List.cons_append, List.append_assoc,
      Bool.false_eq_true, if_true, if_false] <;>
    first
      | exact List.nil_sublist _
      | exact List.Sublist.refl _
      | exact sub100 _ _ _
      | exact sub010 _ _ _
      | exact sub001 _ _ _
      | exact sub110 _ _ _
      | exact sub101 _ _ _
      | exact sub011 _ _ _

/-- C7: within one run of the upload workflow the progress notifications
that reach the observer always form a subsequence of 0.1, 0.8, 1.0 in that
strict order (whatever step fails and whichever upgrade attempts find the UI
gone), and a fully successful run with a live UI delivers exactly the
sequence 0.1, 0.8, 1.0. -/
theorem upload_progress_order (env : UploadEnv) :
    List.Sublist (progressEvents (upload_file_to_telegram env).2)
      [1 / 10, 8 / 10, 1] ∧
    (∀ fn : String, env.filename = some fn →
      ∀ sz hdl c : Nat, env.metadata = .ok sz → env.uploadBlob = .ok hdl →
        env.getMe = .ok () → env.resolveSelf = .ok (some c) →
        env.send = .ok () → (∀ i, env.alive i = true) →
        progressEvents (upload_file_to_telegram env).2 = [1 / 10, 8 / 10, 1]) := by
  refine ⟨upload_progress_sub env, ?_⟩
  intro fn hfn sz hdl c hmd hub hgm hrs hsd hal
  simp [upload_file_to_telegram, hfn, hmd, hub, hgm, hrs, hsd, hal 0, hal 1,
    hal 2, progressEvents, upgradeEmit, List.filterMap_append]

/-- Witness for C7: the all-success environment delivers exactly
0.1, 0.8, 1.0. -/
theorem upload_progress_order_witness :
    progressEvents (upload_file_to_telegram envOk).2 = [1 / 10, 8 / 10, 1] :=
  (upload_progress_order envOk).2 "a.txt" rfl 500 7 3 rfl rfl rfl rfl rfl
    (fun _ => rfl)

/-- C9: given steps 1-4 succeeded, the workflow fails with the resolution
error exactly when the self-identity cannot be resolved (the `get_me` call
fails, the `resolve_username("me")` call fails, or it returns no chat); when
it resolves to a chat, that chat is the destination of the single
`send_message` call; and on a resolution failure no `send_message` call is
made and the 1.0 progress notification is never delivered — the remaining
steps are aborted. -/
theorem upload_resolution_step (env : UploadEnv) (fn : String) (sz hdl : Nat)
    (hfn : env.filename = some fn) (hmd : env.metadata = .ok sz)
    (hub : env.uploadBlob = .ok hdl) :
    ((upload_file_to_telegram env).1 = .error .resolutionError ↔
      ¬ ∃ c : Nat, env.getMe = .ok () ∧ env.resolveSelf = .ok (some c)) ∧
    (∀ c : Nat, env.getMe = .ok () → env.resolveSelf = .ok (some c) →
      callEvents (upload_file_to_telegram env).2 =
        [.fsMetadata, .uploadFile, .getMe, .resolveUsername "me",
         .sendMessage c]) ∧
    ((upload_file_to_telegram env).1 = .error .resolutionError →
      (∀ c : Nat,
        ExtCall.sendMessage c ∉ callEvents (upload_file_to_telegram env).2) ∧
      (1 : Rat) ∉ progressEvents (upload_file_to_telegram env).2) := by
  rcases hgm : env.getMe with _ | u <;>
    rcases hrv : env.resolveSelf with _ | (_ | c) <;>
    rcases hsd : env.send with _ | v <;>
    cases h0 : env.alive 0 <;> cases h1 : env.alive 1 <;>
    cases h2 : env.alive 2 <;>
    simp [upload_file_to_telegram, hfn, hmd, hub, hgm, hrv, hsd,
      callEvents, progressEvents, upgradeEmit, h0, h1, h2,
      List.filterMap_append] <;>
    norm_num

/-- Witness for C9: with steps 1-4 healthy and the self-chat resolved to 3,
the send call targets chat 3, and the run does not fail with a resolution
error. -/
theorem upload_resolution_step_witness :
    callEvents (upload_file_to_telegram envOk).2 =
      [.fsMetadata, .uploadFile, .getMe, .resolveUsername "me",
       .sendMessage 3] :=
  (upload_resolution_step envOk "a.txt" 500 7 rfl rfl rfl).2.1 3 rfl rfl

/-- C8: a connection that already reports authorized makes authentication
return success at once: the whole trace is the single authorization check —
no code request, no sign-in, no two-factor submission, no stdin read. -/
theorem authenticate_already_authorized (env : AuthEnv)
    (h : env.isAuthorized = .ok true) :
    authenticate_with_phone env = (.ok (), [Ev.call .isAuthorized]) := by
  simp [authenticate_with_phone, h]

/-- A concrete authentication environment that already reports authorized. -/
def authEnvOk : AuthEnv := ⟨.ok true, .ok (), .ok "1", .success, .ok "p", .ok ()⟩

/-- Witness for C8 on the already-authorized environment. -/
theorem authenticate_already_authorized_witness :
    authenticate_with_phone authEnvOk = (.ok (), [Ev.call .isAuthorized]) :=
  authenticate_already_authorized authEnvOk rfl

end TeleDrive
